import Mathlib

/-!
Shallow embedding of the geocoding gateway (src/server.ts): the data
model, the upstream client call, the request translator
(handleGeocodingRequest) and the two transport adapters (the realtime
`geocoding-request` handler and the HTTP `POST /geocode` and
`GET /health` handlers). The upstream service is an external
collaborator, so it enters as an oracle mapping the requested URL to an
observed outcome; every handler additionally returns the list of
upstream URLs it fetched, so that "zero upstream calls" and "a single
attempt, no retry" are stated as facts about that list.
-/

/-- One geocoding result, passed through verbatim from the upstream
service; mirrors the `GeocodeResult` interface. The gateway never
inspects the numbers, so they are modelled as integers. -/
structure GeocodeResult where
  display_name : String
  confidence : List Int
  boundingboxes : List (List Int)
  levels_polygons : List (List Int)
deriving DecidableEq, Repr

/-- Response status, mirroring the union type `success | error`. -/
inductive Status where
  | success
  | error
deriving DecidableEq, Repr

/-- The normalized response envelope (`GeocodeResponse`). The
error-path object literals in the source omit `results`, so the field
is optional here even though the interface declares it. -/
structure GeocodeResponse where
  results : Option (List GeocodeResult)
  status : Status
  message : Option String
deriving DecidableEq, Repr

/-- A thrown JavaScript value as the adapters observe it: either an
`Error` carrying a message, or some non-`Error` value; the
`instanceof` test in each catch block distinguishes the two. -/
inductive Thrown where
  | err (msg : String)
  | nonError
deriving DecidableEq, Repr

/-- Outcome of one upstream HTTP GET as the gateway observes it. -/
inductive UpstreamOutcome where
  | ok (data : List GeocodeResult)
  | connRefused
  | timeout
  | non2xx (code : Nat)
  | malformedBody
deriving DecidableEq, Repr

/-- Predicate: every outcome other than a parsed 2xx response. -/
def UpstreamOutcome.isFailure : UpstreamOutcome → Bool
  | UpstreamOutcome.ok _ => false
  | _ => true

/-- Model of the external HTTP client call (`axios.get`), consumed
through its interface: the promise resolves with the parsed body on a
2xx response and rejects, with a client-specific reason that the
gateway only logs, on connection failure, timeout, a non-2xx status,
or an unparsable body. -/
def axiosGet : UpstreamOutcome → Except String (List GeocodeResult)
  | UpstreamOutcome.ok data => Except.ok data
  | UpstreamOutcome.connRefused => Except.error "connect ECONNREFUSED"
  | UpstreamOutcome.timeout => Except.error "timeout exceeded"
  | UpstreamOutcome.non2xx code =>
      Except.error ("Request failed with status code " ++ toString code)
  | UpstreamOutcome.malformedBody => Except.error "unparsable response body"

/-- Predicate: the client call rejected rather than resolved. -/
def isRejected : Except String (List GeocodeResult) → Bool
  | Except.ok _ => false
  | Except.error _ => true

/-- Uppercase hexadecimal digit for n less than 16. -/
def hexUpper (n : Nat) : Char :=
  if n < 10 then Char.ofNat (48 + n) else Char.ofNat (55 + n)

/-- Percent-encoding of one byte as a percent sign and two uppercase
hex digits. -/
def percentEncodeByte (b : UInt8) : String :=
  String.mk [Char.ofNat 37, hexUpper (b.toNat / 16), hexUpper (b.toNat % 16)]

/-- Characters that encodeURIComponent leaves unescaped: ASCII
alphanumerics and minus, underscore, dot, bang, tilde, star,
apostrophe (code 39) and parentheses. -/
def isUnreservedURIChar (c : Char) : Bool :=
  (c.isAlpha && c.toNat < 128) || c.isDigit || c == '-' || c == '_' ||
    c == '.' || c == '!' || c == '~' || c == '*' || c.toNat == 39 ||
    c == '(' || c == ')'

/-- JavaScript encodeURIComponent: unreserved characters pass through,
every other character is percent-encoded byte by byte in UTF-8. -/
def encodeURIComponent (s : String) : String :=
  s.data.foldl
    (fun acc c =>
      if isUnreservedURIChar c then acc.push c
      else acc ++ String.join ((String.singleton c).toUTF8.toList.map percentEncodeByte))
    ""

/-- Truthiness of the optional string `k` in the conditional template
piece: undefined and the empty string are falsy, everything else is
truthy. -/
def jsTruthy : Option String → Bool
  | none => false
  | some s => s != ""

/-- Default upstream base URL, used when the GEOCODING_SERVICE_URL
environment variable is unset. -/
def GEOCODING_SERVICE_URL : String := "http://localhost:5008"

/-- The upstream request URL built inside handleGeocodingRequest: the
base URL, the path `/geocoding`, `text` URL-encoded as the text query
parameter, and, only when `k` is truthy, `&k=` followed by `k`
verbatim. -/
def buildGeocodingUrl (base text : String) (k : Option String) : String :=
  base ++ "/geocoding?text=" ++ encodeURIComponent text ++
    (if jsTruthy k then "&k=" ++ k.getD "" else "")

/-- The request translator `handleGeocodingRequest`: builds the
upstream URL, performs one client call, and either returns the success
envelope or throws an `Error` whose message is
"Failed to communicate with geocoding service" (the original reason is
only logged). The second component records the upstream URLs fetched
during the call. -/
def handleGeocodingRequest (upstream : String → UpstreamOutcome)
    (base text : String) (k : Option String) :
    Except Thrown GeocodeResponse × List String :=
  match axiosGet (upstream (buildGeocodingUrl base text k)) with
  | Except.ok data =>
      (Except.ok { results := some data, status := Status.success, message := none },
        [buildGeocodingUrl base text k])
  | Except.error _ =>
      (Except.error (Thrown.err "Failed to communicate with geocoding service"),
        [buildGeocodingUrl base text k])

/-- The `instanceof` dispatch in each catch block: the message of an
`Error`, or the adapter-specific fallback text otherwise. -/
def thrownMessage (t : Thrown) (fallback : String) : String :=
  match t with
  | Thrown.err m => m
  | Thrown.nonError => fallback

/-- The realtime adapter handler for one `geocoding-request` event:
awaits the translator on the event data and emits its result as the
`geocoding-response` payload; a thrown value is caught and emitted as
an error envelope with the fallback text "Unknown error occurred". -/
def socketOnGeocodingRequest (upstream : String → UpstreamOutcome)
    (base text : String) (k : Option String) :
    GeocodeResponse × List String :=
  match handleGeocodingRequest upstream base text k with
  | (Except.ok resp, calls) => (resp, calls)
  | (Except.error e, calls) =>
      ({ results := none, status := Status.error,
         message := some (thrownMessage e "Unknown error occurred") }, calls)

/-- Body of a `POST /geocode` request after JSON parsing: both fields
may be absent. -/
structure PostBody where
  text : Option String
  k : Option String
deriving DecidableEq, Repr

/-- The HTTP adapter handler for `POST /geocode`: a falsy `text` is
answered 400 with "Text query is required" before any upstream call;
otherwise the translator result is answered 200, and a thrown value is
caught and answered 500 with the fallback text "Internal server
error". The result pairs the status code and body with the list of
upstream URLs fetched. -/
def postGeocode (upstream : String → UpstreamOutcome) (base : String)
    (body : PostBody) : (Nat × GeocodeResponse) × List String :=
  if jsTruthy body.text then
    match handleGeocodingRequest upstream base (body.text.getD "") body.k with
    | (Except.ok resp, calls) => ((200, resp), calls)
    | (Except.error e, calls) =>
        ((500, { results := none, status := Status.error,
                 message := some (thrownMessage e "Internal server error") }), calls)
  else
    ((400, { results := none, status := Status.error,
             message := some "Text query is required" }), [])

/-- Body of the `GET /health` response. -/
structure HealthResponse where
  status : String
deriving DecidableEq, Repr

/-- The `GET /health` handler: unconditionally 200 with status
"healthy", fetching nothing upstream. -/
def healthHandler : (Nat × HealthResponse) × List String :=
  ((200, { status := "healthy" }), [])

/-- Envelope invariant: a success envelope carries `results` and no
`message`; an error envelope carries a `message` and no `results`. -/
def envelopeInvariant (r : GeocodeResponse) : Bool :=
  match r.status with
  | Status.success => r.results.isSome && r.message.isNone
  | Status.error => r.message.isSome && r.results.isNone

/-- Sample upstream result used in concrete checks. -/
def parisResult : GeocodeResult :=
  { display_name := "Paris, France", confidence := [1],
    boundingboxes := [[1, 2, 3, 4]], levels_polygons := [[0]] }

/-- Helper: a failing outcome makes the client call reject. -/
theorem axiosGet_rejected_of_isFailure (o : UpstreamOutcome)
    (h : o.isFailure = true) : isRejected (axiosGet o) = true := by
  cases o <;> simp [axiosGet, isRejected, UpstreamOutcome.isFailure] at h ⊢

/-- Helper: on a failing outcome the translator throws the fixed error
after exactly one upstream fetch. -/
theorem handle_of_failure (upstream : String → UpstreamOutcome)
    (base t : String) (k : Option String)
    (hf : (upstream (buildGeocodingUrl base t k)).isFailure = true) :
    handleGeocodingRequest upstream base t k =
      (Except.error (Thrown.err "Failed to communicate with geocoding service"),
        [buildGeocodingUrl base t k]) := by
  cases h : upstream (buildGeocodingUrl base t k) with
  | ok data => rw [h] at hf; simp [UpstreamOutcome.isFailure] at hf
  | connRefused => unfold handleGeocodingRequest; rw [h]; rfl
  | timeout => unfold handleGeocodingRequest; rw [h]; rfl
  | non2xx code => unfold handleGeocodingRequest; rw [h]; rfl
  | malformedBody => unfold handleGeocodingRequest; rw [h]; rfl

/-- Helper: on a 2xx outcome the translator returns the success
envelope built from the upstream data, after exactly one fetch. -/
theorem handle_of_success (upstream : String → UpstreamOutcome)
    (base t : String) (k : Option String) (data : List GeocodeResult)
    (hs : upstream (buildGeocodingUrl base t k) = UpstreamOutcome.ok data) :
    handleGeocodingRequest upstream base t k =
      (Except.ok { results := some data, status := Status.success, message := none },
        [buildGeocodingUrl base t k]) := by
  unfold handleGeocodingRequest
  rw [hs]
  rfl

/-- Helper: the realtime payload on a failing outcome. -/
theorem socket_of_failure (upstream : String → UpstreamOutcome)
    (base t : String) (k : Option String)
    (hf : (upstream (buildGeocodingUrl base t k)).isFailure = true) :
    (socketOnGeocodingRequest upstream base t k).1 =
      { results := none, status := Status.error,
        message := some "Failed to communicate with geocoding service" } := by
  unfold socketOnGeocodingRequest
  rw [handle_of_failure upstream base t k hf]
  rfl

/-- Helper: the realtime payload on a 2xx outcome. -/
theorem socket_of_success (upstream : String → UpstreamOutcome)
    (base t : String) (k : Option String) (data : List GeocodeResult)
    (hs : upstream (buildGeocodingUrl base t k) = UpstreamOutcome.ok data) :
    (socketOnGeocodingRequest upstream base t k).1 =
      { results := some data, status := Status.success, message := none } := by
  unfold socketOnGeocodingRequest
  rw [handle_of_success upstream base t k data hs]

/-- Helper: a non-empty text is truthy. -/
theorem jsTruthy_some_of_ne (t : String) (ht : t ≠ "") :
    jsTruthy (some t) = true := by
  simpa [jsTruthy] using ht

/-- Helper: the POST response on a falsy text. -/
theorem post_of_falsy (upstream : String → UpstreamOutcome) (base : String)
    (body : PostBody) (h : jsTruthy body.text = false) :
    postGeocode upstream base body =
      ((400, { results := none, status := Status.error,
               message := some "Text query is required" }), []) := by
  simp [postGeocode, h]

/-- Helper: the POST response on a truthy text and failing outcome. -/
theorem post_of_failure (upstream : String → UpstreamOutcome)
    (base t : String) (k : Option String) (ht : t ≠ "")
    (hf : (upstream (buildGeocodingUrl base t k)).isFailure = true) :
    postGeocode upstream base { text := some t, k := k } =
      ((500, { results := none, status := Status.error,
               message := some "Failed to communicate with geocoding service" }),
        [buildGeocodingUrl base t k]) := by
  simp [postGeocode, jsTruthy_some_of_ne t ht,
    handle_of_failure upstream base t k hf, thrownMessage]

/-- Helper: the POST response on a truthy text and 2xx outcome. -/
theorem post_of_success (upstream : String → UpstreamOutcome)
    (base t : String) (k : Option String) (ht : t ≠ "")
    (data : List GeocodeResult)
    (hs : upstream (buildGeocodingUrl base t k) = UpstreamOutcome.ok data) :
    postGeocode upstream base { text := some t, k := k } =
      ((200, { results := some data, status := Status.success, message := none }),
        [buildGeocodingUrl base t k]) := by
  simp [postGeocode, jsTruthy_some_of_ne t ht,
    handle_of_success upstream base t k data hs]

/-- C1 counterexample: with an upstream that refuses connections,
handleGeocodingRequest does not return an envelope at all: it throws
the Error whose message is "Failed to communicate with geocoding
service", so the response the claim promises is never returned. -/
theorem handleGeocodingRequest_throws_on_failure :
    (handleGeocodingRequest (fun _ => UpstreamOutcome.connRefused)
        GEOCODING_SERVICE_URL "Paris" none).1 =
      Except.error (Thrown.err "Failed to communicate with geocoding service") := by
  rfl

/-- C1 (amended): for every upstream behaviour the translator either
returns the success envelope built from the upstream data, or throws
the fixed error, which the realtime adapter catches and folds into the
caller-visible error envelope with that exact message. -/
theorem translator_success_or_throw (upstream : String → UpstreamOutcome)
    (base text : String) (k : Option String) :
    (∃ data, (handleGeocodingRequest upstream base text k).1 =
        Except.ok { results := some data, status := Status.success, message := none }) ∨
    ((handleGeocodingRequest upstream base text k).1 =
        Except.error (Thrown.err "Failed to communicate with geocoding service") ∧
      (socketOnGeocodingRequest upstream base text k).1 =
        { results := none, status := Status.error,
          message := some "Failed to communicate with geocoding service" }) := by
  cases h : upstream (buildGeocodingUrl base text k) with
  | ok data =>
      exact Or.inl ⟨data, by rw [handle_of_success upstream base text k data h]⟩
  | connRefused =>
      exact Or.inr ⟨by rw [handle_of_failure upstream base text k (by rw [h]; rfl)],
        socket_of_failure upstream base text k (by rw [h]; rfl)⟩
  | timeout =>
      exact Or.inr ⟨by rw [handle_of_failure upstream base text k (by rw [h]; rfl)],
        socket_of_failure upstream base text k (by rw [h]; rfl)⟩
  | non2xx code =>
      exact Or.inr ⟨by rw [handle_of_failure upstream base text k (by rw [h]; rfl)],
        socket_of_failure upstream base text k (by rw [h]; rfl)⟩
  | malformedBody =>
      exact Or.inr ⟨by rw [handle_of_failure upstream base text k (by rw [h]; rfl)],
        socket_of_failure upstream base text k (by rw [h]; rfl)⟩

/-- C2 counterexample: a POST with non-empty text whose upstream call
is refused is answered with HTTP 500, not 200, carrying the error
envelope. -/
theorem postGeocode_upstream_failure_is_500 :
    (postGeocode (fun _ => UpstreamOutcome.connRefused) GEOCODING_SERVICE_URL
        { text := some "Paris", k := none }).1 =
      (500, { results := none, status := Status.error,
              message := some "Failed to communicate with geocoding service" }) ∧
    (postGeocode (fun _ => UpstreamOutcome.connRefused) GEOCODING_SERVICE_URL
        { text := some "Paris", k := none }).1.1 ≠ 200 := by
  exact ⟨rfl, by decide⟩

/-- C2 (amended): for every POST with non-empty text whose upstream
call fails, the HTTP adapter responds 500 with the translator's fixed
error message, because the translator throws and the catch-all maps
the thrown Error to 500; 200 is answered exactly on upstream
success. -/
theorem postGeocode_failure_envelope (upstream : String → UpstreamOutcome)
    (base t : String) (k : Option String) (ht : t ≠ "")
    (hf : (upstream (buildGeocodingUrl base t k)).isFailure = true) :
    (postGeocode upstream base { text := some t, k := k }).1 =
      (500, { results := none, status := Status.error,
              message := some "Failed to communicate with geocoding service" }) := by
  rw [post_of_failure upstream base t k ht hf]

/-- C2 amended witness: a concrete timeout upstream yields 500 with
the fixed message. -/
theorem postGeocode_failure_envelope_witness :
    (postGeocode (fun _ => UpstreamOutcome.timeout) GEOCODING_SERVICE_URL
        { text := some "Paris", k := none }).1 =
      (500, { results := none, status := Status.error,
              message := some "Failed to communicate with geocoding service" }) :=
  postGeocode_failure_envelope (fun _ => UpstreamOutcome.timeout)
    GEOCODING_SERVICE_URL "Paris" none (by decide) rfl

/-- C3: on every upstream failure both transports deliver the same
caller-visible payload: status error with the message exactly
"Failed to communicate with geocoding service", identical across the
two transports. -/
theorem failure_payload_identical (upstream : String → UpstreamOutcome)
    (base t : String) (k : Option String) (ht : t ≠ "")
    (hf : (upstream (buildGeocodingUrl base t k)).isFailure = true) :
    (socketOnGeocodingRequest upstream base t k).1 =
      { results := none, status := Status.error,
        message := some "Failed to communicate with geocoding service" } ∧
    (postGeocode upstream base { text := some t, k := k }).1.2 =
      { results := none, status := Status.error,
        message := some "Failed to communicate with geocoding service" } := by
  refine ⟨socket_of_failure upstream base t k hf, ?_⟩
  rw [post_of_failure upstream base t k ht hf]

/-- C3 witness: a concrete 500-status upstream yields the identical
fixed payload on both transports. -/
theorem failure_payload_identical_witness :
    (socketOnGeocodingRequest (fun _ => UpstreamOutcome.non2xx 500)
        GEOCODING_SERVICE_URL "Paris" none).1 =
      { results := none, status := Status.error,
        message := some "Failed to communicate with geocoding service" } ∧
    (postGeocode (fun _ => UpstreamOutcome.non2xx 500) GEOCODING_SERVICE_URL
        { text := some "Paris", k := none }).1.2 =
      { results := none, status := Status.error,
        message := some "Failed to communicate with geocoding service" } :=
  failure_payload_identical (fun _ => UpstreamOutcome.non2xx 500)
    GEOCODING_SERVICE_URL "Paris" none (by decide) rfl

/-- C4: with the same successful upstream behaviour and non-empty
text, both transports deliver the identical success envelope carrying
the upstream results, because both funnel through the same
handleGeocodingRequest call on the same text and k. -/
theorem success_envelope_identical (upstream : String → UpstreamOutcome)
    (base t : String) (k : Option String) (ht : t ≠ "")
    (data : List GeocodeResult)
    (hs : upstream (buildGeocodingUrl base t k) = UpstreamOutcome.ok data) :
    (socketOnGeocodingRequest upstream base t k).1 =
      { results := some data, status := Status.success, message := none } ∧
    (postGeocode upstream base { text := some t, k := k }).1 =
      (200, { results := some data, status := Status.success, message := none }) := by
  refine ⟨socket_of_success upstream base t k data hs, ?_⟩
  rw [post_of_success upstream base t k ht data hs]

/-- C4 witness: a concrete one-result upstream yields the identical
success envelope on both transports. -/
theorem success_envelope_identical_witness :
    (socketOnGeocodingRequest (fun _ => UpstreamOutcome.ok [parisResult])
        GEOCODING_SERVICE_URL "Paris" none).1 =
      { results := some [parisResult], status := Status.success, message := none } ∧
    (postGeocode (fun _ => UpstreamOutcome.ok [parisResult]) GEOCODING_SERVICE_URL
        { text := some "Paris", k := none }).1 =
      (200, { results := some [parisResult], status := Status.success, message := none }) :=
  success_envelope_identical (fun _ => UpstreamOutcome.ok [parisResult])
    GEOCODING_SERVICE_URL "Paris" none (by decide) [parisResult] rfl

/-- C5: every failing outcome (connection refused, timeout, non-2xx,
malformed body) makes the client call reject, and the translator then
throws the fixed error after exactly one upstream fetch (no retry); in
particular no malformed body ever yields a success envelope. -/
theorem upstream_failure_total (upstream : String → UpstreamOutcome)
    (base t : String) (k : Option String)
    (hf : (upstream (buildGeocodingUrl base t k)).isFailure = true) :
    isRejected (axiosGet (upstream (buildGeocodingUrl base t k))) = true ∧
    (handleGeocodingRequest upstream base t k).1 =
      Except.error (Thrown.err "Failed to communicate with geocoding service") ∧
    (handleGeocodingRequest upstream base t k).2 = [buildGeocodingUrl base t k] := by
  refine ⟨axiosGet_rejected_of_isFailure _ hf, ?_, ?_⟩ <;>
    rw [handle_of_failure upstream base t k hf]

/-- C5 witness: a concrete malformed-body upstream rejects, and the
translator throws after a single fetch. -/
theorem upstream_failure_total_witness :
    isRejected (axiosGet ((fun _ => UpstreamOutcome.malformedBody)
        (buildGeocodingUrl GEOCODING_SERVICE_URL "Paris" none))) = true ∧
    (handleGeocodingRequest (fun _ => UpstreamOutcome.malformedBody)
        GEOCODING_SERVICE_URL "Paris" none).1 =
      Except.error (Thrown.err "Failed to communicate with geocoding service") ∧
    (handleGeocodingRequest (fun _ => UpstreamOutcome.malformedBody)
        GEOCODING_SERVICE_URL "Paris" none).2 =
      [buildGeocodingUrl GEOCODING_SERVICE_URL "Paris" none] :=
  upstream_failure_total (fun _ => UpstreamOutcome.malformedBody)
    GEOCODING_SERVICE_URL "Paris" none rfl

/-- C6: a POST whose text is absent or empty is answered 400 with
"Text query is required" and performs zero upstream calls. -/
theorem post_missing_text_400 (upstream : String → UpstreamOutcome)
    (base : String) (body : PostBody)
    (h : body.text = none ∨ body.text = some "") :
    (postGeocode upstream base body).1 =
      (400, { results := none, status := Status.error,
              message := some "Text query is required" }) ∧
    (postGeocode upstream base body).2 = [] := by
  have hf : jsTruthy body.text = false := by
    rcases h with h | h <;> rw [h] <;> rfl
  rw [post_of_falsy upstream base body hf]
  exact ⟨rfl, rfl⟩

/-- C6 witness: the concrete missing-text body is answered 400 with no
upstream fetch, even against a healthy upstream. -/
theorem post_missing_text_400_witness :
    (postGeocode (fun _ => UpstreamOutcome.ok []) GEOCODING_SERVICE_URL
        { text := none, k := none }).1 =
      (400, { results := none, status := Status.error,
              message := some "Text query is required" }) ∧
    (postGeocode (fun _ => UpstreamOutcome.ok []) GEOCODING_SERVICE_URL
        { text := none, k := none }).2 = [] :=
  post_missing_text_400 (fun _ => UpstreamOutcome.ok [])
    GEOCODING_SERVICE_URL { text := none, k := none } (Or.inl rfl)

/-- C7: every payload either adapter emits satisfies the envelope
invariant: a success payload carries results and no message, an error
payload carries a message and no results, identically on both
transports. -/
theorem envelope_invariant_holds (upstream : String → UpstreamOutcome)
    (base t : String) (k : Option String) (body : PostBody) :
    envelopeInvariant (socketOnGeocodingRequest upstream base t k).1 = true ∧
    envelopeInvariant (postGeocode upstream base body).1.2 = true := by
  constructor
  · cases h : upstream (buildGeocodingUrl base t k) with
    | ok data => rw [socket_of_success upstream base t k data h]; rfl
    | connRefused => rw [socket_of_failure upstream base t k (by rw [h]; rfl)]; rfl
    | timeout => rw [socket_of_failure upstream base t k (by rw [h]; rfl)]; rfl
    | non2xx code => rw [socket_of_failure upstream base t k (by rw [h]; rfl)]; rfl
    | malformedBody => rw [socket_of_failure upstream base t k (by rw [h]; rfl)]; rfl
  · rcases body with ⟨tb, kb⟩
    cases tb with
    | none => rw [post_of_falsy upstream base ⟨none, kb⟩ rfl]; rfl
    | some tv =>
        by_cases ht : tv = ""
        · subst ht; rw [post_of_falsy upstream base ⟨some "", kb⟩ rfl]; rfl
        · cases h : upstream (buildGeocodingUrl base tv kb) with
          | ok data => rw [post_of_success upstream base tv kb ht data h]; rfl
          | connRefused => rw [post_of_failure upstream base tv kb ht (by rw [h]; rfl)]; rfl
          | timeout => rw [post_of_failure upstream base tv kb ht (by rw [h]; rfl)]; rfl
          | non2xx code => rw [post_of_failure upstream base tv kb ht (by rw [h]; rfl)]; rfl
          | malformedBody => rw [post_of_failure upstream base tv kb ht (by rw [h]; rfl)]; rfl

/-- C8 counterexample: k supplied as the empty string is not appended,
so the URL carries no k parameter at all, refuting the claim that a
supplied k is always appended verbatim. -/
theorem k_empty_not_appended :
    buildGeocodingUrl GEOCODING_SERVICE_URL "a" (some "") =
      "http://localhost:5008/geocoding?text=a" := by
  rfl

/-- C8 (amended): text is URL-encoded into the text parameter of a GET
to the base URL at path /geocoding; a non-empty k is appended verbatim
as the k parameter; an omitted k leaves the query string without any k
parameter, and so does an empty k. -/
theorem upstream_url_shape (base text kv : String) (h : kv ≠ "") :
    buildGeocodingUrl base text (some kv) =
      base ++ "/geocoding?text=" ++ encodeURIComponent text ++ ("&k=" ++ kv) ∧
    buildGeocodingUrl base text none =
      base ++ "/geocoding?text=" ++ encodeURIComponent text := by
  constructor
  · simp [buildGeocodingUrl, jsTruthy_some_of_ne kv h]
  · simp [buildGeocodingUrl, jsTruthy]

/-- C8 amended witness: concrete URLs for a supplied non-empty k and
for an omitted k. -/
theorem upstream_url_shape_witness :
    buildGeocodingUrl "u" "a" (some "5") =
      "u" ++ "/geocoding?text=" ++ encodeURIComponent "a" ++ ("&k=" ++ "5") ∧
    buildGeocodingUrl "u" "a" none =
      "u" ++ "/geocoding?text=" ++ encodeURIComponent "a" :=
  upstream_url_shape "u" "a" "5" (by decide)

/-- C9: the health endpoint unconditionally answers 200 with status
"healthy" and fetches nothing upstream; the handler consults no other
component, so upstream reachability cannot affect it. -/
theorem health_always_200 :
    healthHandler = ((200, { status := "healthy" }), []) := by
  rfl

/-- C10: supplying k as the empty string builds the same upstream URL
as omitting k entirely, because the builder tests k by truthiness. -/
theorem k_empty_eq_omitted (base text : String) :
    buildGeocodingUrl base text (some "") = buildGeocodingUrl base text none := by
  rfl
